import Mathlib

/-!
Shallow embedding of the NSFW detection service in
src/server/services/nsfw-detection.ts.

Modelling choices:
- Number values (confidence scores, block rates) are rationals; the source
  literals 0.7, 0.4, 0.15, 127.5 become the exact rationals 7/10, 2/5, 3/20,
  255/2.
- The external sharp image library is modelled by a SharpEnv record giving,
  for the buffer of one detection call, the settled outcome of each sharp
  call the source makes: `sharp(buffer).metadata()` (which may throw), the
  resize-to-png step, and the raw pixel extraction. The source calls
  `sharp(imageBuffer).metadata()` twice on the same buffer (once in
  detectNSFW, once in preprocessImage); sharp is deterministic for a fixed
  buffer, so both calls share the one `metadataResult`.
- A thrown JavaScript error is modelled as its message string; `String(error)`
  on a thrown `Error` object is the message prefixed with "Error: "
  (jsErrorString below).
- Module-level mutable state (modelSession, modelLoadPromise, auditLogs) is
  threaded explicitly; a settled promise is modelled by its outcome
  (`Except String Unit`), and sequential calls observe the settled value,
  matching the await-based source in which each exported call runs to
  completion here.
- `new Date()` is modelled by a `now : Nat` clock value passed by the caller.
-/

namespace NSFW

/-- Configuration constant, line 16 of the source: 0.7. -/
def NSFW_CONFIDENCE_THRESHOLD : ℚ := 7/10

/-- Configuration constant, line 17 of the source. -/
def MAX_IMAGE_SIZE_MB : Nat := 50

/-- Configuration constant, line 18 of the source. -/
def MAX_IMAGE_DIMENSION : Nat := 4096

/-- The three categories of NSFWDetectionResult.category (line 25). -/
inductive Category where
  | safe
  | nsfw
  | uncertain
deriving DecidableEq, Repr

/-- NSFWDetectionResult (lines 22-27). -/
structure NSFWDetectionResult where
  isNSFW : Bool
  confidence : ℚ
  category : Category
  error : Option String
deriving DecidableEq, Repr

/-- NSFWAuditLog (lines 29-38). Dimensions are a pair (width, height). -/
structure NSFWAuditLog where
  timestamp : Nat
  userId : Option String
  fileName : String
  isNSFW : Bool
  confidence : ℚ
  fileSize : Nat
  dimensions : Option (Nat × Nat)
  error : Option String
deriving DecidableEq, Repr

/-- The fields of a logAudit argument, Omit of NSFWAuditLog without the
timestamp (line 299). -/
structure AuditInput where
  userId : Option String
  fileName : String
  isNSFW : Bool
  confidence : ℚ
  fileSize : Nat
  dimensions : Option (Nat × Nat)
  error : Option String
deriving DecidableEq, Repr

/-- The metadata record sharp returns for a buffer: format tag, width and
height, each possibly absent. A present-but-zero dimension is distinct from
an absent one because JavaScript truthiness treats both as falsy but the
object can hold either. -/
structure ImageMetadata where
  format : Option String
  width : Option Nat
  height : Option Nat
deriving DecidableEq, Repr

/-- Outcomes of the sharp library calls made for one buffer: metadata
decoding (can throw), the resize/png re-encode (can throw), and raw pixel
extraction (can throw, yields the byte list). -/
structure SharpEnv where
  metadataResult : Except String ImageMetadata
  resizeResult : Except String Unit
  rawResult : Except String (List Nat)
deriving Repr

/-- String(error) on a thrown Error object (lines 280, 289). -/
def jsErrorString (msg : String) : String := "Error: " ++ msg

/-- The dimensions field recorded in audit entries: the source writes
`metadata.width && metadata.height ? \x7bwidth, height\x7d : undefined`
(lines 211-214, 258-261); a width or height of 0 is falsy in JavaScript. -/
def jsDimensions (meta : ImageMetadata) : Option (Nat × Nat) :=
  match meta.width, meta.height with
  | some w, some h => if w ≠ 0 ∧ h ≠ 0 then some (w, h) else none
  | _, _ => none

/-- The format rejection test of line 197:
`!metadata.format || !allowList.includes(metadata.format)`. An empty-string
format is falsy in JavaScript, and is also outside the allow list, so both
readings reject it; we use the includes test. -/
def formatRejected (meta : ImageMetadata) : Bool :=
  match meta.format with
  | none => true
  | some f => !(["jpeg", "png", "webp", "gif"].contains f)

/-- The tensor built at lines 150-153: a Float32Array of 224*224*3 zeros,
with entry i overwritten by pixels[i]/127.5 - 1 for each i below the pixel
count (writes past the typed array length are ignored). -/
def mkTensor (pixels : List Nat) : List ℚ :=
  (List.range (224 * 224 * 3)).map (fun i =>
    if i < pixels.length then (pixels.getD i 0 : ℚ) / (255/2) - 1 else 0)

/-- preprocessImage (lines 115-160). Returns none where the source returns
null: when any sharp call throws (caught at line 156), when a dimension is
absent or zero (the explicit throw at line 123, also caught), or when a
dimension exceeds MAX_IMAGE_DIMENSION (line 127). -/
def preprocessImage (env : SharpEnv) : Option (List ℚ) :=
  match env.metadataResult with
  | .error _ => none
  | .ok meta =>
    match meta.width, meta.height with
    | some w, some h =>
      if w = 0 ∨ h = 0 then none
      else if MAX_IMAGE_DIMENSION < w ∨ MAX_IMAGE_DIMENSION < h then none
      else
        match env.resizeResult with
        | .error _ => none
        | .ok _ =>
          match env.rawResult with
          | .error _ => none
          | .ok pixels => some (mkTensor pixels)
    | _, _ => none

/-- logAudit (lines 299-321): stamp the entry with the current time, push it,
and keep only the last 10000 entries (the splice at line 309 removes the
first length-10000 entries). -/
def logAudit (now : Nat) (log : AuditInput) (auditLogs : List NSFWAuditLog) :
    List NSFWAuditLog :=
  let auditEntry : NSFWAuditLog :=
    ⟨now, log.userId, log.fileName, log.isNSFW, log.confidence,
     log.fileSize, log.dimensions, log.error⟩
  let pushed := auditLogs ++ [auditEntry]
  if 10000 < pushed.length then pushed.drop (pushed.length - 10000) else pushed

/-- getAuditLogs (lines 326-328): `auditLogs.slice(-limit).reverse()`. For
limit = 0, JavaScript slice(-0) is slice(0), the whole array; for limit > 0,
slice(-limit) is the last limit elements (all of them when limit exceeds the
length, which List.drop with truncated subtraction also gives). -/
def getAuditLogs (limit : Nat) (auditLogs : List NSFWAuditLog) :
    List NSFWAuditLog :=
  (if limit = 0 then auditLogs else auditLogs.drop (auditLogs.length - limit)).reverse

/-- clearAuditLogs (lines 333-336): `auditLogs.length = 0` empties the list. -/
def clearAuditLogs : List NSFWAuditLog := []

/-- The record getNSFWStats returns (lines 346-351). -/
structure NSFWStats where
  totalChecks : Nat
  blockedCount : Nat
  allowedCount : Nat
  blockRate : ℚ
deriving DecidableEq, Repr

/-- getNSFWStats (lines 341-352), with the source's local constants
totalChecks and blockedCount inlined. -/
def getNSFWStats (auditLogs : List NSFWAuditLog) : NSFWStats :=
  { totalChecks := auditLogs.length
    blockedCount := (auditLogs.filter (fun log => log.isNSFW)).length
    allowedCount := auditLogs.length - (auditLogs.filter (fun log => log.isNSFW)).length
    blockRate :=
      if 0 < auditLogs.length then
        (((auditLogs.filter (fun log => log.isNSFW)).length : ℚ) / (auditLogs.length : ℚ)) * 100
      else 0 }

/-- The module-level inference-engine state (lines 40-41): the nullable
modelSession and the nullable modelLoadPromise. A promise is modelled by its
settled outcome; the stub loader body (lines 91-105) never assigns
modelSession, so a successful load leaves it null, which the source's
`modelSession!` returns as-is at runtime (the non-null assertion is
compile-time only). -/
structure ModelState where
  modelSession : Option Unit
  modelLoadPromise : Option (Except String Unit)
deriving Repr

/-- initializeModel (lines 78-109). The loadOutcome argument is the settled
outcome the loader IIFE would produce if it were started on this call
(downloadModel plus the stub setup, lines 91-105). The call returns either a
thrown error (Except.error, from awaiting a rejected promise) or the value of
`modelSession!` (Except.ok, possibly none since the stub never sets it).
Note the source never resets modelLoadPromise after a rejection. -/
def initializeModel (loadOutcome : Except String Unit) (st : ModelState) :
    Except String (Option Unit) × ModelState :=
  match st.modelSession with
  | some s => (.ok (some s), st)
  | none =>
    match st.modelLoadPromise with
    | some (.error e) => (.error e, st)
    | some (.ok _) => (.ok st.modelSession, st)
    | none =>
      let started : ModelState := { st with modelLoadPromise := some loadOutcome }
      match loadOutcome with
      | .error e => (.error e, started)
      | .ok _ => (.ok started.modelSession, started)

/-- The category expression of lines 244-248:
confidence > 0.7 gives nsfw, else confidence > 0.4 gives uncertain, else
safe. -/
def categoryOf (confidence : ℚ) : Category :=
  if NSFW_CONFIDENCE_THRESHOLD < confidence then Category.nsfw
  else if (4 : ℚ)/10 < confidence then Category.uncertain
  else Category.safe

/-- The isNSFW expression of line 239: confidence > NSFW_CONFIDENCE_THRESHOLD. -/
def isNSFWOf (confidence : ℚ) : Bool :=
  decide (NSFW_CONFIDENCE_THRESHOLD < confidence)

/-- The whole module-level mutable state a detection call can touch. -/
structure ServiceState where
  model : ModelState
  auditLogs : List NSFWAuditLog
deriving Repr

/-- detectNSFW (lines 165-294). Arguments: the sharp outcomes for the buffer,
fileName, userId?, fileSize?, the clock value used for the audit timestamp,
and the module state. Paths, in source order:
size rejection (lines 175-193, guarded by the JavaScript truthiness test
`fileSize && fileSize > MAX_IMAGE_SIZE_MB*1024*1024`); a metadata throw at
line 196 lands in the catch block at line 272; format rejection
(lines 197-219); a null from preprocessImage becomes the throw at line 225,
landing in the catch block; otherwise the success path with the hardcoded
confidence 0.15 (line 238). Every path appends exactly one audit entry and
returns one result; the model state is never touched (the initializeModel
call at line 230 is commented out in the source). -/
def detectNSFW (env : SharpEnv) (fileName : String) (userId : Option String)
    (fileSize : Option Nat) (now : Nat) (st : ServiceState) :
    NSFWDetectionResult × ServiceState :=
  if fileSize.getD 0 ≠ 0 ∧ MAX_IMAGE_SIZE_MB * 1024 * 1024 < fileSize.getD 0 then
    let logs := logAudit now
      ⟨userId, fileName, true, 1, fileSize.getD 0, none,
       some "File size exceeds limit"⟩ st.auditLogs
    (⟨true, 1, Category.nsfw, some "File size exceeds limit"⟩,
     { st with auditLogs := logs })
  else
    match env.metadataResult with
    | .error e =>
      let logs := logAudit now
        ⟨userId, fileName, true, 1, fileSize.getD 0, none,
         some (jsErrorString e)⟩ st.auditLogs
      (⟨true, 1, Category.nsfw, some (jsErrorString e)⟩,
       { st with auditLogs := logs })
    | .ok meta =>
      if formatRejected meta then
        let logs := logAudit now
          ⟨userId, fileName, true, 1, fileSize.getD 0, jsDimensions meta,
           some "Invalid image format"⟩ st.auditLogs
        (⟨true, 1, Category.nsfw, some "Invalid image format"⟩,
         { st with auditLogs := logs })
      else
        match preprocessImage env with
        | none =>
          let logs := logAudit now
            ⟨userId, fileName, true, 1, fileSize.getD 0, none,
             some (jsErrorString "Image preprocessing failed")⟩ st.auditLogs
          (⟨true, 1, Category.nsfw, some (jsErrorString "Image preprocessing failed")⟩,
           { st with auditLogs := logs })
        | some _tensorData =>
          let logs := logAudit now
            ⟨userId, fileName, isNSFWOf (15/100), 15/100, fileSize.getD 0,
             jsDimensions meta, none⟩ st.auditLogs
          (⟨isNSFWOf (15/100), 15/100, categoryOf (15/100), none⟩,
           { st with auditLogs := logs })

/-- The disjunction of the failure stages of one detectNSFW call: oversize
declared size, a metadata decoding throw, a disallowed format, or a
preprocessing failure. -/
def pipelineFailed (env : SharpEnv) (fileSize : Option Nat) : Bool :=
  decide (fileSize.getD 0 ≠ 0 ∧ MAX_IMAGE_SIZE_MB * 1024 * 1024 < fileSize.getD 0) ||
  (match env.metadataResult with
   | .error _ => true
   | .ok meta => formatRejected meta || (preprocessImage env).isNone)

/-- A concrete audit record used to instantiate general theorems. -/
def sampleLog : NSFWAuditLog := ⟨0, none, "sample.png", true, 1, 0, none, none⟩

/-- A concrete module state: no model loaded, empty audit log. -/
def stEmpty : ServiceState := ⟨⟨none, none⟩, []⟩

/-- A concrete environment for a decodable image with a disallowed format. -/
def envBadFormat : SharpEnv :=
  ⟨Except.ok ⟨some "bmp", some 10, some 20⟩, Except.ok (), Except.ok []⟩

/-- A concrete environment for a valid png whose width exceeds the maximum
dimension. -/
def envBigImage : SharpEnv :=
  ⟨Except.ok ⟨some "png", some 5000, some 20⟩, Except.ok (), Except.ok []⟩

/-- A concrete environment for a valid png for which every stage succeeds. -/
def envGood : SharpEnv :=
  ⟨Except.ok ⟨some "png", some 100, some 200⟩, Except.ok (), Except.ok [0, 255, 10]⟩

/-- A string with the Error prefix is never empty. -/
theorem jsErrorString_ne_empty (msg : String) : jsErrorString msg ≠ "" := by
  intro hc
  unfold jsErrorString at hc
  have hlen := congrArg String.length hc
  rw [String.length_append] at hlen
  have h7 : ("Error: " : String).length = 7 := rfl
  have h0 : ("" : String).length = 0 := rfl
  omega

/-- The mock confidence of line 238 is below both thresholds. -/
theorem isNSFWOf_mock : isNSFWOf (15/100) = false := by
  unfold isNSFWOf NSFW_CONFIDENCE_THRESHOLD
  rw [decide_eq_false_iff_not]
  norm_num

/-- The mock confidence of line 238 classifies as safe. -/
theorem categoryOf_mock : categoryOf (15/100) = Category.safe := by
  unfold categoryOf NSFW_CONFIDENCE_THRESHOLD
  rw [if_neg (by norm_num), if_neg (by norm_num)]

/-- Query behavior as the specification words it: the most recent limit
records (all records when fewer than limit exist) in most-recent-first
order. -/
def specQueryAuditLog (limit : Nat) (logs : List NSFWAuditLog) :
    List NSFWAuditLog :=
  logs.reverse.take limit

/-- C2: on [0,1], the decision policy assigns nsfw exactly when
confidence > 0.7, uncertain exactly when 0.4 < confidence <= 0.7, safe
exactly when confidence <= 0.4 (so confidence = 0.7 is uncertain and
confidence = 0.4 is safe), isNSFW holds exactly when confidence > 0.7, and
the uncertain and safe categories force isNSFW = false. -/
theorem policy_thresholds (c : ℚ) (h0 : 0 ≤ c) (h1 : c ≤ 1) :
    (categoryOf c = Category.nsfw ↔ 7/10 < c) ∧
    (categoryOf c = Category.uncertain ↔ (4/10 < c ∧ c ≤ 7/10)) ∧
    (categoryOf c = Category.safe ↔ c ≤ 4/10) ∧
    (isNSFWOf c = true ↔ 7/10 < c) ∧
    ((categoryOf c = Category.uncertain ∨ categoryOf c = Category.safe) →
      isNSFWOf c = false) := by
  have hiff : isNSFWOf c = true ↔ 7/10 < c := by
    unfold isNSFWOf NSFW_CONFIDENCE_THRESHOLD
    exact decide_eq_true_iff
  rcases le_or_lt c (4/10) with hA | hA
  · have hcat : categoryOf c = Category.safe := by
      unfold categoryOf NSFW_CONFIDENCE_THRESHOLD
      rw [if_neg (by linarith), if_neg (by linarith)]
    rw [hcat]
    refine ⟨⟨fun h => absurd h (by decide), fun h => by linarith⟩,
      ⟨fun h => absurd h (by decide), fun h => by rcases h with ⟨h1, _⟩; linarith⟩,
      ⟨fun _ => hA, fun _ => rfl⟩, hiff, fun _ => ?_⟩
    rcases Bool.eq_false_or_eq_true (isNSFWOf c) with hb | hb
    · exact absurd (hiff.mp hb) (by linarith)
    · exact hb
  · rcases le_or_lt c (7/10) with hB | hB
    · have hcat : categoryOf c = Category.uncertain := by
        unfold categoryOf NSFW_CONFIDENCE_THRESHOLD
        rw [if_neg (by linarith), if_pos hA]
      rw [hcat]
      refine ⟨⟨fun h => absurd h (by decide), fun h => by linarith⟩,
        ⟨fun _ => ⟨hA, hB⟩, fun _ => rfl⟩,
        ⟨fun h => absurd h (by decide), fun h => by linarith⟩, hiff, fun _ => ?_⟩
      rcases Bool.eq_false_or_eq_true (isNSFWOf c) with hb | hb
      · exact absurd (hiff.mp hb) (by linarith)
      · exact hb
    · have hcat : categoryOf c = Category.nsfw := by
        unfold categoryOf NSFW_CONFIDENCE_THRESHOLD
        rw [if_pos hB]
      rw [hcat]
      exact ⟨⟨fun _ => hB, fun _ => rfl⟩,
        ⟨fun h => absurd h (by decide), fun h => by rcases h with ⟨_, h2⟩; linarith⟩,
        ⟨fun h => absurd h (by decide), fun h => by linarith⟩, hiff,
        fun h => by rcases h with h | h <;> exact absurd h (by decide)⟩

/-- Witness for C2 at the boundary confidence 0.7. -/
theorem policy_thresholds_witness :
    (0 : ℚ) ≤ 7/10 ∧ (7 : ℚ)/10 ≤ 1 ∧
    ((categoryOf (7/10) = Category.nsfw ↔ (7 : ℚ)/10 < 7/10) ∧
     (categoryOf (7/10) = Category.uncertain ↔ ((4 : ℚ)/10 < 7/10 ∧ (7 : ℚ)/10 ≤ 7/10)) ∧
     (categoryOf (7/10) = Category.safe ↔ (7 : ℚ)/10 ≤ 4/10) ∧
     (isNSFWOf (7/10) = true ↔ (7 : ℚ)/10 < 7/10) ∧
     ((categoryOf (7/10) = Category.uncertain ∨ categoryOf (7/10) = Category.safe) →
       isNSFWOf (7/10) = false)) :=
  ⟨by norm_num, by norm_num, policy_thresholds (7/10) (by norm_num) (by norm_num)⟩

/-- C4: after one failed initialization, the failure is reported to that
caller, but a later call with a loader that would now succeed still returns
the original failure and leaves modelLoadPromise holding the rejected
outcome: the source never clears modelLoadPromise on rejection, so the
process is permanently poisoned instead of retrying from the uninitialized
state. -/
theorem initializeModel_poisoned_after_failure :
    (initializeModel (Except.error "load failed") ⟨none, none⟩).1 =
      Except.error "load failed" ∧
    (initializeModel (Except.ok ())
        ((initializeModel (Except.error "load failed") ⟨none, none⟩).2)).1 =
      Except.error "load failed" ∧
    ((initializeModel (Except.ok ())
        ((initializeModel (Except.error "load failed") ⟨none, none⟩).2)).2).modelLoadPromise =
      some (Except.error "load failed") :=
  ⟨rfl, rfl, rfl⟩

/-- C8 counterexample: at limit 0 the query does not return the most recent
0 records; JavaScript slice(-0) is slice(0), so the whole log comes back. -/
theorem getAuditLogs_zero_limit_counterexample :
    getAuditLogs 0 [sampleLog] ≠ specQueryAuditLog 0 [sampleLog] := by
  decide

/-- C8 amended: for every limit >= 1, the query returns the most recent
limit records (all of them when fewer exist) in most-recent-first order;
the embedding is a pure function, so the log state is not mutated. -/
theorem getAuditLogs_pos_limit (limit : Nat) (logs : List NSFWAuditLog)
    (h : 1 ≤ limit) :
    getAuditLogs limit logs = specQueryAuditLog limit logs := by
  unfold getAuditLogs specQueryAuditLog
  rw [if_neg (by omega : ¬ limit = 0)]
  have hr := List.rtake_eq_reverse_take_reverse (l := logs) (n := limit)
  unfold List.rtake at hr
  rw [hr, List.reverse_reverse]

/-- Witness for the amended C8 at limit 1 on a two-record log. -/
theorem getAuditLogs_pos_limit_witness :
    1 ≤ 1 ∧
    getAuditLogs 1 [sampleLog, sampleLog] = specQueryAuditLog 1 [sampleLog, sampleLog] :=
  ⟨le_refl 1, getAuditLogs_pos_limit 1 [sampleLog, sampleLog] (le_refl 1)⟩

/-- C9: the statistics are computed from the current log contents: total is
the record count, blocked counts the records with isNSFW true, allowed and
blocked partition the total, blockRate is exactly blocked/total*100 when the
log is nonempty and 0 when it is empty, and after a clear all four fields
are zero. -/
theorem getNSFWStats_correct (logs : List NSFWAuditLog) :
    (getNSFWStats logs).totalChecks = logs.length ∧
    (getNSFWStats logs).blockedCount = logs.countP (fun r => r.isNSFW) ∧
    (getNSFWStats logs).allowedCount + (getNSFWStats logs).blockedCount =
      (getNSFWStats logs).totalChecks ∧
    (0 < logs.length →
      (getNSFWStats logs).blockRate =
        ((logs.countP (fun r => r.isNSFW) : ℚ) / (logs.length : ℚ)) * 100) ∧
    (logs.length = 0 → (getNSFWStats logs).blockRate = 0) ∧
    getNSFWStats clearAuditLogs = ⟨0, 0, 0, 0⟩ := by
  refine ⟨rfl, ?_, ?_, ?_, ?_, rfl⟩
  · simp [getNSFWStats, List.countP_eq_length_filter]
  · have hle : (logs.filter (fun log => log.isNSFW)).length ≤ logs.length :=
      List.length_filter_le _ _
    simp only [getNSFWStats]
    omega
  · intro hpos
    simp only [getNSFWStats]
    rw [if_pos hpos]
    simp [List.countP_eq_length_filter]
  · intro hzero
    simp only [getNSFWStats]
    rw [if_neg (by omega)]

/-- Witness for C9 on a one-record log with the record blocked. -/
theorem getNSFWStats_correct_witness :
    (getNSFWStats [sampleLog]).totalChecks = [sampleLog].length ∧
    (getNSFWStats [sampleLog]).blockedCount = [sampleLog].countP (fun r => r.isNSFW) ∧
    (getNSFWStats [sampleLog]).allowedCount + (getNSFWStats [sampleLog]).blockedCount =
      (getNSFWStats [sampleLog]).totalChecks ∧
    (0 < [sampleLog].length →
      (getNSFWStats [sampleLog]).blockRate =
        (([sampleLog].countP (fun r => r.isNSFW) : ℚ) / ([sampleLog].length : ℚ)) * 100) ∧
    ([sampleLog].length = 0 → (getNSFWStats [sampleLog]).blockRate = 0) ∧
    getNSFWStats clearAuditLogs = ⟨0, 0, 0, 0⟩ :=
  getNSFWStats_correct [sampleLog]

/-- C1: whenever any stage of a detection call fails (oversize declared
size, metadata decoding throw, disallowed format, or preprocessing failure),
the returned result is the fail-closed triple isNSFW = true, confidence = 1,
category = nsfw with a non-empty error string; and whenever the error field
is set the verdict is blocking. -/
theorem detect_fail_closed (env : SharpEnv) (fileName : String)
    (userId : Option String) (fileSize : Option Nat) (now : Nat)
    (st : ServiceState) :
    (pipelineFailed env fileSize = true →
      ((detectNSFW env fileName userId fileSize now st).1.isNSFW = true ∧
       (detectNSFW env fileName userId fileSize now st).1.confidence = 1 ∧
       (detectNSFW env fileName userId fileSize now st).1.category = Category.nsfw ∧
       ∃ s, (detectNSFW env fileName userId fileSize now st).1.error = some s ∧
         s ≠ "")) ∧
    (∀ s, (detectNSFW env fileName userId fileSize now st).1.error = some s →
      (detectNSFW env fileName userId fileSize now st).1.isNSFW = true) := by
  by_cases hsz : fileSize.getD 0 ≠ 0 ∧ MAX_IMAGE_SIZE_MB * 1024 * 1024 < fileSize.getD 0
  · constructor
    · intro _
      refine ⟨by simp [detectNSFW, hsz], by simp [detectNSFW, hsz],
        by simp [detectNSFW, hsz], "File size exceeds limit",
        by simp [detectNSFW, hsz], by decide⟩
    · intro s _
      simp [detectNSFW, hsz]
  · rcases hmeta : env.metadataResult with e | meta
    · constructor
      · intro _
        refine ⟨by simp [detectNSFW, hsz, hmeta], by simp [detectNSFW, hsz, hmeta],
          by simp [detectNSFW, hsz, hmeta], jsErrorString e,
          by simp [detectNSFW, hsz, hmeta], jsErrorString_ne_empty e⟩
      · intro s _
        simp [detectNSFW, hsz, hmeta]
    · by_cases hfmt : formatRejected meta = true
      · constructor
        · intro _
          refine ⟨by simp [detectNSFW, hsz, hmeta, hfmt],
            by simp [detectNSFW, hsz, hmeta, hfmt],
            by simp [detectNSFW, hsz, hmeta, hfmt], "Invalid image format",
            by simp [detectNSFW, hsz, hmeta, hfmt], by decide⟩
        · intro s _
          simp [detectNSFW, hsz, hmeta, hfmt]
      · rw [Bool.not_eq_true] at hfmt
        rcases hpre : preprocessImage env with _ | t
        · constructor
          · intro _
            refine ⟨by simp [detectNSFW, hsz, hmeta, hfmt, hpre],
              by simp [detectNSFW, hsz, hmeta, hfmt, hpre],
              by simp [detectNSFW, hsz, hmeta, hfmt, hpre],
              jsErrorString "Image preprocessing failed",
              by simp [detectNSFW, hsz, hmeta, hfmt, hpre],
              jsErrorString_ne_empty "Image preprocessing failed"⟩
          · intro s _
            simp [detectNSFW, hsz, hmeta, hfmt, hpre]
        · constructor
          · intro hfail
            exfalso
            simp [pipelineFailed, hsz, hmeta, hfmt, hpre] at hfail
          · intro s hs
            exfalso
            simp [detectNSFW, hsz, hmeta, hfmt, hpre] at hs

/-- Witness for C1 on a decodable image with a disallowed format. -/
theorem detect_fail_closed_witness :
    pipelineFailed envBadFormat none = true ∧
    ((detectNSFW envBadFormat "f.bin" none none 0 stEmpty).1.isNSFW = true ∧
     (detectNSFW envBadFormat "f.bin" none none 0 stEmpty).1.confidence = 1 ∧
     (detectNSFW envBadFormat "f.bin" none none 0 stEmpty).1.category = Category.nsfw ∧
     ∃ s, (detectNSFW envBadFormat "f.bin" none none 0 stEmpty).1.error = some s ∧
       s ≠ "") :=
  ⟨by decide,
   (detect_fail_closed envBadFormat "f.bin" none none 0 stEmpty).1 (by decide)⟩

/-- C3: a detection call is a total function: it returns exactly one result
record, and its only effect on the module state is exactly one logAudit
append; the model state is untouched on every path. -/
theorem detect_one_result_one_audit (env : SharpEnv) (fileName : String)
    (userId : Option String) (fileSize : Option Nat) (now : Nat)
    (st : ServiceState) :
    ∃ entry : AuditInput,
      (detectNSFW env fileName userId fileSize now st).2.auditLogs =
        logAudit now entry st.auditLogs ∧
      (detectNSFW env fileName userId fileSize now st).2.model = st.model := by
  by_cases hsz : fileSize.getD 0 ≠ 0 ∧ MAX_IMAGE_SIZE_MB * 1024 * 1024 < fileSize.getD 0
  · exact ⟨⟨userId, fileName, true, 1, fileSize.getD 0, none,
      some "File size exceeds limit"⟩,
      by simp [detectNSFW, hsz], by simp [detectNSFW, hsz]⟩
  · rcases hmeta : env.metadataResult with e | meta
    · exact ⟨⟨userId, fileName, true, 1, fileSize.getD 0, none,
        some (jsErrorString e)⟩,
        by simp [detectNSFW, hsz, hmeta], by simp [detectNSFW, hsz, hmeta]⟩
    · by_cases hfmt : formatRejected meta = true
      · exact ⟨⟨userId, fileName, true, 1, fileSize.getD 0, jsDimensions meta,
          some "Invalid image format"⟩,
          by simp [detectNSFW, hsz, hmeta, hfmt],
          by simp [detectNSFW, hsz, hmeta, hfmt]⟩
      · rw [Bool.not_eq_true] at hfmt
        rcases hpre : preprocessImage env with _ | t
        · exact ⟨⟨userId, fileName, true, 1, fileSize.getD 0, none,
            some (jsErrorString "Image preprocessing failed")⟩,
            by simp [detectNSFW, hsz, hmeta, hfmt, hpre],
            by simp [detectNSFW, hsz, hmeta, hfmt, hpre]⟩
        · exact ⟨⟨userId, fileName, isNSFWOf (15/100), 15/100, fileSize.getD 0,
            jsDimensions meta, none⟩,
            by simp [detectNSFW, hsz, hmeta, hfmt, hpre],
            by simp [detectNSFW, hsz, hmeta, hfmt, hpre]⟩

/-- C5: a declared file size above the 50 MB cap is rejected with the
fail-closed triple and the fixed error message, the rejection is recorded by
one logAudit append, and the whole call is independent of the sharp
environment, so the buffer is never decoded or preprocessed. -/
theorem detect_oversize_reject (env env2 : SharpEnv) (fileName : String)
    (userId : Option String) (sz : Nat) (now : Nat) (st : ServiceState)
    (h : MAX_IMAGE_SIZE_MB * 1024 * 1024 < sz) :
    (detectNSFW env fileName userId (some sz) now st).1 =
      ⟨true, 1, Category.nsfw, some "File size exceeds limit"⟩ ∧
    (detectNSFW env fileName userId (some sz) now st).2.auditLogs =
      logAudit now
        ⟨userId, fileName, true, 1, sz, none, some "File size exceeds limit"⟩
        st.auditLogs ∧
    detectNSFW env fileName userId (some sz) now st =
      detectNSFW env2 fileName userId (some sz) now st := by
  have hpos : sz ≠ 0 := by
    unfold MAX_IMAGE_SIZE_MB at h
    omega
  refine ⟨?_, ?_, ?_⟩ <;> simp [detectNSFW, hpos, h]

/-- Witness for C5 at one byte over the cap. -/
theorem detect_oversize_reject_witness :
    MAX_IMAGE_SIZE_MB * 1024 * 1024 < 52428801 ∧
    ((detectNSFW envBadFormat "f.bin" none (some 52428801) 0 stEmpty).1 =
      ⟨true, 1, Category.nsfw, some "File size exceeds limit"⟩ ∧
     (detectNSFW envBadFormat "f.bin" none (some 52428801) 0 stEmpty).2.auditLogs =
      logAudit 0
        ⟨none, "f.bin", true, 1, 52428801, none, some "File size exceeds limit"⟩
        stEmpty.auditLogs ∧
     detectNSFW envBadFormat "f.bin" none (some 52428801) 0 stEmpty =
      detectNSFW envGood "f.bin" none (some 52428801) 0 stEmpty) :=
  ⟨by decide,
   detect_oversize_reject envBadFormat envGood "f.bin" none 52428801 0 stEmpty
     (by decide)⟩

/-- C6: an otherwise-accepted image (size within the cap, allowed format)
whose decoded width or height exceeds MAX_IMAGE_DIMENSION makes
preprocessImage return none, and the detection call returns the fail-closed
triple with the preprocessing-failure error. -/
theorem detect_dimension_reject (env : SharpEnv) (meta : ImageMetadata)
    (w h : Nat) (fileName : String) (userId : Option String)
    (fileSize : Option Nat) (now : Nat) (st : ServiceState)
    (hmeta : env.metadataResult = Except.ok meta)
    (hfmt : formatRejected meta = false)
    (hw : meta.width = some w) (hh : meta.height = some h)
    (hdim : MAX_IMAGE_DIMENSION < w ∨ MAX_IMAGE_DIMENSION < h)
    (hsz : fileSize.getD 0 ≤ MAX_IMAGE_SIZE_MB * 1024 * 1024) :
    preprocessImage env = none ∧
    (detectNSFW env fileName userId fileSize now st).1 =
      ⟨true, 1, Category.nsfw, some (jsErrorString "Image preprocessing failed")⟩ := by
  have hpre : preprocessImage env = none := by
    by_cases h0 : w = 0 ∨ h = 0
    · simp [preprocessImage, hmeta, hw, hh, h0]
    · simp [preprocessImage, hmeta, hw, hh, h0, hdim]
  have hns : ¬(fileSize.getD 0 ≠ 0 ∧
      MAX_IMAGE_SIZE_MB * 1024 * 1024 < fileSize.getD 0) := by
    intro hc
    exact absurd hsz (not_le.mpr hc.2)
  exact ⟨hpre, by simp [detectNSFW, hns, hmeta, hfmt, hpre]⟩

/-- Witness for C6 on a 5000-pixel-wide png. -/
theorem detect_dimension_reject_witness :
    envBigImage.metadataResult = Except.ok ⟨some "png", some 5000, some 20⟩ ∧
    formatRejected ⟨some "png", some 5000, some 20⟩ = false ∧
    (MAX_IMAGE_DIMENSION < 5000 ∨ MAX_IMAGE_DIMENSION < 20) ∧
    (none : Option Nat).getD 0 ≤ MAX_IMAGE_SIZE_MB * 1024 * 1024 ∧
    (preprocessImage envBigImage = none ∧
     (detectNSFW envBigImage "f.png" none none 0 stEmpty).1 =
      ⟨true, 1, Category.nsfw, some (jsErrorString "Image preprocessing failed")⟩) :=
  ⟨rfl, by decide, by decide, by decide,
   detect_dimension_reject envBigImage ⟨some "png", some 5000, some 20⟩ 5000 20
     "f.png" none none 0 stEmpty rfl (by decide) rfl rfl (by decide) (by decide)⟩

/-- C10: when every validation stage passes and preprocessing succeeds, the
call returns the constant verdict of the hardcoded mock confidence 0.15
(line 238): isNSFW = false, category = safe, no error; the inference-engine
state is never read or written (the initializeModel call is commented out),
so the result is the same for every model state. -/
theorem detect_success_constant (env : SharpEnv) (meta : ImageMetadata)
    (fileName : String) (userId : Option String) (fileSize : Option Nat)
    (now : Nat) (st : ServiceState)
    (hsz : fileSize.getD 0 ≤ MAX_IMAGE_SIZE_MB * 1024 * 1024)
    (hmeta : env.metadataResult = Except.ok meta)
    (hfmt : formatRejected meta = false)
    (hpre : (preprocessImage env).isSome = true) :
    (detectNSFW env fileName userId fileSize now st).1 =
      ⟨false, 15/100, Category.safe, none⟩ ∧
    (detectNSFW env fileName userId fileSize now st).2.model = st.model ∧
    (∀ m : ModelState,
      (detectNSFW env fileName userId fileSize now ⟨m, st.auditLogs⟩).1 =
        (detectNSFW env fileName userId fileSize now st).1) := by
  obtain ⟨t, ht⟩ := Option.isSome_iff_exists.mp hpre
  have hns : ¬(fileSize.getD 0 ≠ 0 ∧
      MAX_IMAGE_SIZE_MB * 1024 * 1024 < fileSize.getD 0) := by
    intro hc
    exact absurd hsz (not_le.mpr hc.2)
  refine ⟨?_, by simp [detectNSFW, hns, hmeta, hfmt, ht], ?_⟩
  · simp [detectNSFW, hns, hmeta, hfmt, ht, isNSFWOf_mock, categoryOf_mock]
  · intro m
    simp [detectNSFW, hns, hmeta, hfmt, ht]

/-- Witness for C10 on a fully valid png. -/
theorem detect_success_constant_witness :
    (none : Option Nat).getD 0 ≤ MAX_IMAGE_SIZE_MB * 1024 * 1024 ∧
    envGood.metadataResult = Except.ok ⟨some "png", some 100, some 200⟩ ∧
    formatRejected ⟨some "png", some 100, some 200⟩ = false ∧
    (preprocessImage envGood).isSome = true ∧
    ((detectNSFW envGood "f.png" none none 0 stEmpty).1 =
      ⟨false, 15/100, Category.safe, none⟩ ∧
     (detectNSFW envGood "f.png" none none 0 stEmpty).2.model = stEmpty.model ∧
     (∀ m : ModelState,
       (detectNSFW envGood "f.png" none none 0 ⟨m, stEmpty.auditLogs⟩).1 =
         (detectNSFW envGood "f.png" none none 0 stEmpty).1)) :=
  ⟨by decide, rfl, by decide, rfl,
   detect_success_constant envGood ⟨some "png", some 100, some 200⟩ "f.png" none
     none 0 stEmpty (by decide) rfl (by decide) rfl⟩

/-- The audit record logAudit builds from a timestamp and an input
(lines 300-303). -/
def mkEntry (now : Nat) (log : AuditInput) : NSFWAuditLog :=
  ⟨now, log.userId, log.fileName, log.isNSFW, log.confidence,
   log.fileSize, log.dimensions, log.error⟩

/-- The audit log produced by a sequence of record calls (timestamp and
payload for each), starting from the empty log the module starts with. -/
def runAuditTrail (entries : List (Nat × AuditInput)) : List NSFWAuditLog :=
  entries.foldl (fun logs e => logAudit e.1 e.2 logs) []

/-- One logAudit step, phrased with the pushed length exposed. -/
theorem logAudit_eq (now : Nat) (log : AuditInput) (l : List NSFWAuditLog) :
    logAudit now log l =
      if 10000 < l.length + 1 then
        (l ++ [mkEntry now log]).drop (l.length + 1 - 10000)
      else l ++ [mkEntry now log] := by
  unfold logAudit mkEntry
  simp [List.length_append]

/-- Folding logAudit over a sequence of record calls keeps exactly the most
recent 10000 entries: the result is the suffix of the full chronological
record list starting at position (total - 10000). -/
theorem foldl_logAudit_eq (entries : List (Nat × AuditInput))
    (init : List NSFWAuditLog) (hinit : init.length ≤ 10000) :
    List.foldl (fun logs e => logAudit e.1 e.2 logs) init entries =
      (init ++ entries.map (fun e => mkEntry e.1 e.2)).drop
        (init.length + entries.length - 10000) := by
  induction entries generalizing init with
  | nil =>
    simp only [List.foldl_nil, List.map_nil, List.append_nil, List.length_nil,
      Nat.add_zero]
    rw [Nat.sub_eq_zero_of_le hinit, List.drop_zero]
  | cons e rest ih =>
    simp only [List.foldl_cons, List.map_cons, List.length_cons]
    rw [logAudit_eq]
    by_cases hlen : init.length < 10000
    · rw [if_neg (by omega)]
      rw [ih (init ++ [mkEntry e.1 e.2]) (by simp [List.length_append]; omega)]
      have hidx : (init ++ [mkEntry e.1 e.2]).length + rest.length - 10000 =
          init.length + (rest.length + 1) - 10000 := by
        simp [List.length_append]
        omega
      rw [hidx, List.append_assoc, List.singleton_append]
    · have h10000 : init.length = 10000 := by omega
      rw [if_pos (by omega)]
      rw [ih ((init ++ [mkEntry e.1 e.2]).drop (init.length + 1 - 10000))
        (by simp [List.length_drop, List.length_append]; omega)]
      have hone : init.length + 1 - 10000 = 1 := by omega
      rw [hone]
      have hsplit : (init ++ [mkEntry e.1 e.2]).drop 1 ++
          rest.map (fun e => mkEntry e.1 e.2) =
          (init ++ [mkEntry e.1 e.2] ++ rest.map (fun e => mkEntry e.1 e.2)).drop 1 := by
        have hz : 1 - init.length = 0 := by omega
        have hz2 : 1 - (init ++ [mkEntry e.1 e.2]).length = 0 := by
          simp [List.length_append]
        simp only [List.drop_append_eq_append_drop, hz, hz2, List.drop_zero]
      rw [hsplit, List.drop_drop]
      have hidx : 1 + (((init ++ [mkEntry e.1 e.2]).drop 1).length + rest.length - 10000) =
          init.length + (rest.length + 1) - 10000 := by
        simp only [List.length_drop, List.length_append, List.length_singleton]
        omega
      rw [hidx, List.append_assoc, List.singleton_append]

/-- C7: after more than 10000 record calls the audit log holds exactly
10000 records, queryAuditLog(10000) returns exactly the 10000 most recent
records in most-recent-first order, and every record any query can return
is among the most recent 10000, so the evicted oldest records are not
retrievable. -/
theorem audit_bound (entries : List (Nat × AuditInput))
    (h : 10000 < entries.length) :
    (runAuditTrail entries).length = 10000 ∧
    getAuditLogs 10000 (runAuditTrail entries) =
      ((entries.map (fun e => mkEntry e.1 e.2)).drop (entries.length - 10000)).reverse ∧
    (∀ limit r, r ∈ getAuditLogs limit (runAuditTrail entries) →
      r ∈ (entries.map (fun e => mkEntry e.1 e.2)).drop (entries.length - 10000)) := by
  have hstate : runAuditTrail entries =
      (entries.map (fun e => mkEntry e.1 e.2)).drop (entries.length - 10000) := by
    unfold runAuditTrail
    rw [foldl_logAudit_eq entries [] (by simp)]
    simp
  have hlen : (runAuditTrail entries).length = 10000 := by
    rw [hstate, List.length_drop, List.length_map]
    omega
  refine ⟨hlen, ?_, ?_⟩
  · unfold getAuditLogs
    rw [if_neg (by omega), hlen]
    rw [Nat.sub_self, List.drop_zero, hstate]
  · intro limit r hr
    unfold getAuditLogs at hr
    rw [List.mem_reverse] at hr
    rw [← hstate]
    by_cases hl : limit = 0
    · rw [if_pos hl] at hr
      exact hr
    · rw [if_neg hl] at hr
      exact List.drop_subset _ _ hr

/-- A concrete sequence of 10001 record calls. -/
def manyEntries : List (Nat × AuditInput) :=
  (List.range 10001).map (fun i => (i, ⟨none, "sample.png", true, 1, 0, none, none⟩))

/-- Witness for C7 after 10001 record calls. -/
theorem audit_bound_witness :
    10000 < manyEntries.length ∧
    ((runAuditTrail manyEntries).length = 10000 ∧
     getAuditLogs 10000 (runAuditTrail manyEntries) =
       ((manyEntries.map (fun e => mkEntry e.1 e.2)).drop
         (manyEntries.length - 10000)).reverse ∧
     (∀ limit r, r ∈ getAuditLogs limit (runAuditTrail manyEntries) →
        r ∈ (manyEntries.map (fun e => mkEntry e.1 e.2)).drop
          (manyEntries.length - 10000))) :=
  ⟨by norm_num [manyEntries], audit_bound manyEntries (by norm_num [manyEntries])⟩

end NSFW
